import Mathlib

/-!
Verification of the cardiac-dashboard dataflow core (src/app.py).

Shallow embedding conventions:
* A dataframe row keeps the two columns the embedded computations read,
  `sex_label` (an optional string: pandas `map` yields NaN, i.e. `none`,
  for unmapped codes) and `age`.  The remaining columns (`sex`, `chol`,
  `target`) feed only the sex-label derivation, modelled separately below,
  and the plotly chart objects, which are presentation artifacts outside
  the embedded core.
* Numbers are exact rationals.  Python's builtin `round(x, 1)` is
  round-half-to-even at one decimal; it is modelled exactly on ℚ.  Every
  concrete value the claims touch is a dyadic rational represented exactly
  by the floats the program manipulates, so no float error is elided at
  any point a claim is evaluated.
* The taipy orchestration engine (task execution, scenario creation) is a
  library dependency whose code is not in src/; those operations are
  modelled from the spec (sections 4.2 and 4.3) and marked as such.
-/

/-- One row of the dataset, restricted to the columns the embedded
computations read.  `sex_label` is `none` when the pandas `map` produced
NaN (sex codes other than 0 and 1). -/
structure Row where
  sex_label : Option String
  age : ℚ
deriving DecidableEq, Repr

/-- Round a rational to the nearest integer, ties to the even integer.
This is the rounding Python's builtin `round` (and numpy) performs. -/
def roundHalfToEven (q : ℚ) : ℤ :=
  if 2 * q < 2 * (⌊q⌋ : ℚ) + 1 then ⌊q⌋
  else if 2 * (⌊q⌋ : ℚ) + 1 < 2 * q then ⌊q⌋ + 1
  else if ⌊q⌋ % 2 = 0 then ⌊q⌋ else ⌊q⌋ + 1

/-- Python `round(x, 1)`: round-half-to-even at one decimal place. -/
def round1 (q : ℚ) : ℚ := (roundHalfToEven (10 * q) : ℚ) / 10

/-- The subset `data` selected inside `compute_avg_age` (src/app.py
lines 34-38): the whole dataframe when the filter is "All", otherwise the
rows whose `sex_label` equals the filter string.  A pandas equality
comparison against NaN is false, so a `none` label matches no filter
string. -/
def genderSubset (filtered_df : List Row) (gender_filter : String) : List Row :=
  if gender_filter = "All" then filtered_df
  else filtered_df.filter (fun r => decide (r.sex_label = some gender_filter))

/-- `compute_avg_age` (src/app.py lines 29-39): average age of the
gender-filtered subset rounded to one decimal, and 0 on an empty
subset. -/
def compute_avg_age (filtered_df : List Row) (gender_filter : String) : ℚ :=
  if (genderSubset filtered_df gender_filter).isEmpty then 0
  else round1 (((genderSubset filtered_df gender_filter).map Row.age).sum
    / ((genderSubset filtered_df gender_filter).length : ℚ))

/-- A value held by a data node: a dataframe, a string, a number, or the
unset sentinel of a node never written. -/
inductive NodeValue where
  | df (d : List Row)
  | str (s : String)
  | num (q : ℚ)
  | unset
deriving DecidableEq, Repr

/-- A scenario's data-node store: node name to current value. -/
def NodeStore : Type := String → NodeValue

/-- A store whose nodes are all unset, as allocated for a fresh scenario. -/
def emptyStore : NodeStore := fun _ => NodeValue.unset

/-- Write a value under a node name, leaving every other node unchanged. -/
def writeStore (store : NodeStore) (n : String) (v : NodeValue) : NodeStore :=
  fun m => if m = n then v else store m

/-- A configured task: ordered input node names, the bound computation
lifted to node values, and the output node names. -/
structure TaskCfg where
  name : String
  inputs : List String
  computation : List NodeValue → List NodeValue
  outputs : List String

/-- Modelled from the spec (section 4.2, `execute`): the taipy execution
engine is library code not in src/.  Reads the current values of the
task's inputs from the store in declared order, invokes the computation,
and writes the returned values to the outputs in declared order. -/
def execute (t : TaskCfg) (store : NodeStore) : NodeStore :=
  (t.outputs.zip (t.computation (t.inputs.map store))).foldl
    (fun st p => writeStore st p.1 p.2) store

/-- The computation of the configured task, lifted to node values: on a
dataframe and a string it returns the single value `compute_avg_age`
produces. -/
def task_computation : List NodeValue → List NodeValue
  | [NodeValue.df d, NodeValue.str g] => [NodeValue.num (compute_avg_age d g)]
  | _ => []

/-- `task_cfg` (src/app.py lines 50-52): the task named "compute_avg_age"
with inputs `[filtered_df, gender_filter]` in that order and the single
output `avg_age`. -/
def task_cfg : TaskCfg :=
  { name := "compute_avg_age"
    inputs := ["filtered_df", "gender_filter"]
    computation := task_computation
    outputs := ["avg_age"] }

/-- Per-session presentation state: the GUI bindings of src/app.py
lines 64-69 plus the bound scenario's node store and the emitted
notifications.  The chart objects (`pie_fig`, `box_fig`) are rendering
artifacts outside the embedded core. -/
structure GuiState where
  gender_selected : String
  filtered_df : List Row
  avg_age : ℚ
  scenario : NodeStore
  notifications : List String

/-- `update_dash` (src/app.py lines 75-84, the fields the core reads):
recomputes the displayed subset and average from the raw dataframe and
the selected gender.  The filter and average expressions are transcribed
inline exactly as the source duplicates them. -/
def update_dash (dfRaw : List Row) (state : GuiState) : GuiState :=
  let subset := if state.gender_selected = "All" then dfRaw
    else dfRaw.filter (fun r => decide (r.sex_label = some state.gender_selected))
  { state with
    filtered_df := subset
    avg_age := if subset.isEmpty then 0
      else round1 ((subset.map Row.age).sum / (subset.length : ℚ)) }

/-- `save_scenario` (src/app.py lines 100-107): writes the presentation
values into the scenario's two input nodes, then emits a notification.
No submission happens. -/
def save_scenario (state : GuiState) : GuiState :=
  { state with
    scenario := writeStore
      (writeStore state.scenario "filtered_df" (NodeValue.df state.filtered_df))
      "gender_filter" (NodeValue.str state.gender_selected)
    notifications := state.notifications ++ ["Scenario saved -- submit to compute!"] }

/-- Modelled from the spec (section 4.3, `create_scenario`): the taipy
scenario factory is library code not in src/.  The system keeps one node
store per scenario id; creating a scenario allocates a fresh isolated
store of unset nodes and returns its id. -/
def create_scenario (sys : List NodeStore) : List NodeStore × Nat :=
  (sys ++ [emptyStore], sys.length)

/-- Write to one scenario's node within the multi-scenario system. -/
def writeNode (sys : List NodeStore) (i : Nat) (n : String) (v : NodeValue) :
    List NodeStore :=
  sys.set i (writeStore (sys.getD i emptyStore) n v)

/-- Read one scenario's node within the multi-scenario system. -/
def readNode (sys : List NodeStore) (i : Nat) (n : String) : NodeValue :=
  sys.getD i emptyStore n

/-- The raw content of the `sex` cell of a loaded record: either a
numeric value or something `pd.to_numeric(..., errors="coerce")` turns
into NaN (a non-numeric string, or a missing cell). -/
inductive RawSex where
  | numeric (q : ℚ)
  | nonNumeric
deriving DecidableEq, Repr

/-- src/app.py line 22: `pd.to_numeric(.., errors="coerce").fillna(0)
.astype(int)` — non-numeric cells coerce to NaN and are filled with 0;
numeric cells are truncated toward zero by `astype(int)` (`Int.tdiv` truncates toward zero). -/
def coerceFillSex : RawSex → ℤ
  | RawSex.numeric q => Int.tdiv q.num (q.den : ℤ)
  | RawSex.nonNumeric => 0

/-- src/app.py line 23: `map({0: "Female", 1: "Male"})` — codes other
than 0 and 1 are unmapped, i.e. NaN, i.e. `none`. -/
def sexLabelMap (z : ℤ) : Option String :=
  if z = 0 then some "Female" else if z = 1 then some "Male" else none

/-- The whole per-row preprocessing of src/app.py lines 22-23. -/
def preprocessRow (raw : RawSex) (a : ℚ) : Row :=
  { sex_label := sexLabelMap (coerceFillSex raw), age := a }

/-- The concrete 10-row dataset of the end-to-end test property: 6 "Male"
rows and 4 "Female" rows, ages [50,55,60,45,70,65,40,48,52,58], the
"Female" rows having ages [45,70,40,58]. -/
def df_c3 : List Row :=
  [⟨some "Male", 50⟩, ⟨some "Male", 55⟩, ⟨some "Male", 60⟩, ⟨some "Female", 45⟩,
   ⟨some "Female", 70⟩, ⟨some "Male", 65⟩, ⟨some "Female", 40⟩, ⟨some "Male", 48⟩,
   ⟨some "Male", 52⟩, ⟨some "Female", 58⟩]

/-- A scenario store holding the end-to-end dataset and the "Female"
filter, as written by commit before submission. -/
def store_c3 : NodeStore :=
  writeStore (writeStore emptyStore "filtered_df" (NodeValue.df df_c3))
    "gender_filter" (NodeValue.str "Female")

/-- A two-row dataframe in which the string "All" occurs as a value of
the `sex_label` column. -/
def df_c4 : List Row := [⟨some "All", 0⟩, ⟨some "Male", 10⟩]

/-- A concrete store for instantiating the task-execution theorem. -/
def store_w1 : NodeStore :=
  writeStore (writeStore emptyStore "filtered_df" (NodeValue.df []))
    "gender_filter" (NodeValue.str "All")

/-- A concrete presentation state for instantiating the commit theorem. -/
def gstate_w : GuiState :=
  { gender_selected := "Female"
    filtered_df := df_c3
    avg_age := 0
    scenario := emptyStore
    notifications := [] }

/-- A concrete two-scenario system for instantiating the isolation
theorem. -/
def sys_w : List NodeStore := [emptyStore, emptyStore]

/-- Helper: the average-age value on the end-to-end dataset with the
"Female" filter is 53.25 rounded half-to-even, that is 53.2 = 266/5. -/
theorem compute_avg_age_df_c3_female : compute_avg_age df_c3 "Female" = 266 / 5 := by
  have h : genderSubset df_c3 "Female" =
      [⟨some "Female", 45⟩, ⟨some "Female", 70⟩, ⟨some "Female", 40⟩,
       ⟨some "Female", 58⟩] := by decide
  rw [compute_avg_age, h]
  norm_num [round1, roundHalfToEven]

/-- C2: for every dataframe and every gender filter, if the subset the
filter selects is empty then `compute_avg_age` returns 0 — no error, no
NaN (the mean is never formed on the empty subset). -/
theorem empty_subset_avg_age_zero (df : List Row) (g : String)
    (h : genderSubset df g = []) : compute_avg_age df g = 0 := by
  simp [compute_avg_age, h]

/-- Witness for C2 at the empty dataframe with the "Female" filter. -/
theorem empty_subset_avg_age_zero_witness :
    genderSubset [] "Female" = [] ∧ compute_avg_age [] "Female" = 0 :=
  ⟨by decide, empty_subset_avg_age_zero [] "Female" (by decide)⟩

/-- C5: the preview path and the task-graph path compute the same
statistic — the average `update_dash` writes to presentation state equals
`compute_avg_age` applied to the same raw dataframe and gender
selection. -/
theorem preview_path_agrees_with_task_path (dfRaw : List Row) (s : GuiState) :
    (update_dash dfRaw s).avg_age = compute_avg_age dfRaw s.gender_selected := rfl

/-- C7: the task computation is deterministic — identical input values
across two calls produce identical outputs; the computation reads nothing
beyond its two explicit arguments. -/
theorem compute_avg_age_deterministic (df₁ df₂ : List Row) (g₁ g₂ : String)
    (hdf : df₁ = df₂) (hg : g₁ = g₂) :
    compute_avg_age df₁ g₁ = compute_avg_age df₂ g₂ := by
  rw [hdf, hg]

/-- Witness for C7 at the end-to-end dataset and the "All" filter. -/
theorem compute_avg_age_deterministic_witness :
    compute_avg_age df_c3 "All" = compute_avg_age df_c3 "All" :=
  compute_avg_age_deterministic df_c3 df_c3 "All" "All" rfl rfl

/-- C9: totality of the task computation — on every dataframe with the
schema columns and every filter string the function returns a value; the
non-empty guard makes the mean-over-zero-rows branch unreachable: the
mean is only formed when the subset's length is positive. -/
theorem compute_avg_age_total_guarded (df : List Row) (g : String) :
    ((genderSubset df g).isEmpty = true → compute_avg_age df g = 0) ∧
    ((genderSubset df g).isEmpty = false →
      0 < (genderSubset df g).length ∧
      compute_avg_age df g =
        round1 (((genderSubset df g).map Row.age).sum
          / ((genderSubset df g).length : ℚ))) := by
  constructor
  · intro h
    simp [compute_avg_age, h]
  · intro h
    refine ⟨List.length_pos.mpr (by simpa using h), by simp [compute_avg_age, h]⟩

/-- Witness for C9: both branches of the guard at concrete inputs, the
empty side at the empty dataframe and the non-empty side at a one-row
dataframe with an unrecognised filter string resolved through "All". -/
theorem compute_avg_age_total_guarded_witness :
    ((genderSubset [] "Unknown").isEmpty = true ∧ compute_avg_age [] "Unknown" = 0) ∧
    ((genderSubset [⟨some "Male", 50⟩] "All").isEmpty = false ∧
      0 < (genderSubset [⟨some "Male", 50⟩] "All").length ∧
      compute_avg_age [⟨some "Male", 50⟩] "All" =
        round1 (((genderSubset [⟨some "Male", 50⟩] "All").map Row.age).sum
          / ((genderSubset [⟨some "Male", 50⟩] "All").length : ℚ))) :=
  ⟨⟨by decide, (compute_avg_age_total_guarded [] "Unknown").1 (by decide)⟩,
   ⟨by decide, (compute_avg_age_total_guarded [⟨some "Male", 50⟩] "All").2 (by decide)⟩⟩

/-- C10: sex-code normalization at load — a non-numeric (or missing) raw
sex cell becomes code 0 and label "Female"; code 0 maps to "Female",
code 1 to "Male", any other code to no label; an unlabeled row matches
neither the "Male" nor the "Female" filter but is included under
"All". -/
theorem sex_normalization :
    (∀ a : ℚ, (preprocessRow RawSex.nonNumeric a).sex_label = some "Female") ∧
    coerceFillSex RawSex.nonNumeric = 0 ∧
    sexLabelMap 0 = some "Female" ∧
    sexLabelMap 1 = some "Male" ∧
    (∀ z : ℤ, z ≠ 0 → z ≠ 1 → sexLabelMap z = none) ∧
    (∀ (df : List Row) (r : Row), r.sex_label = none →
      r ∉ genderSubset df "Male" ∧ r ∉ genderSubset df "Female" ∧
        (r ∈ df → r ∈ genderSubset df "All")) := by
  refine ⟨fun a => rfl, rfl, rfl, rfl, ?_, ?_⟩
  · intro z h0 h1
    simp [sexLabelMap, h0, h1]
  · intro df r hr
    refine ⟨?_, ?_, ?_⟩
    · intro hmem
      rw [genderSubset, if_neg (by decide)] at hmem
      rcases List.mem_filter.mp hmem with ⟨-, hp⟩
      simp [hr] at hp
    · intro hmem
      rw [genderSubset, if_neg (by decide)] at hmem
      rcases List.mem_filter.mp hmem with ⟨-, hp⟩
      simp [hr] at hp
    · intro hin
      simpa [genderSubset] using hin

/-- Witness for C10: an out-of-range code and a concrete unlabeled row. -/
theorem sex_normalization_witness :
    (preprocessRow RawSex.nonNumeric 30).sex_label = some "Female" ∧
    sexLabelMap 5 = none ∧
    (⟨none, 30⟩ : Row) ∉ genderSubset [⟨none, 30⟩] "Male" ∧
    (⟨none, 30⟩ : Row) ∈ genderSubset [⟨none, 30⟩] "All" :=
  ⟨sex_normalization.1 30,
   sex_normalization.2.2.2.2.1 5 (by decide) (by decide),
   (sex_normalization.2.2.2.2.2 [⟨none, 30⟩] ⟨none, 30⟩ rfl).1,
   (sex_normalization.2.2.2.2.2 [⟨none, 30⟩] ⟨none, 30⟩ rfl).2.2 (by decide)⟩

/-- C1: executing the configured task reads the current values of its
input nodes in declared order (`filtered_df` first, then
`gender_filter`), invokes `compute_avg_age` on them, and writes the
single returned value to the `avg_age` node: afterwards that node holds
`compute_avg_age` of the input values at execution time. -/
theorem task_execution_writes_avg_age (store : NodeStore) (d : List Row) (g : String)
    (h1 : store "filtered_df" = NodeValue.df d)
    (h2 : store "gender_filter" = NodeValue.str g) :
    execute task_cfg store "avg_age" = NodeValue.num (compute_avg_age d g) := by
  simp [execute, task_cfg, h1, h2, task_computation, writeStore]

/-- Witness for C1 at a store holding the empty dataframe and the "All"
filter. -/
theorem task_execution_writes_avg_age_witness :
    store_w1 "filtered_df" = NodeValue.df [] ∧
    store_w1 "gender_filter" = NodeValue.str "All" ∧
    execute task_cfg store_w1 "avg_age" = NodeValue.num (compute_avg_age [] "All") :=
  ⟨by decide, by decide,
   task_execution_writes_avg_age store_w1 [] "All" (by decide) (by decide)⟩

/-- C3 counterexample: on the concrete 10-row dataset with the "Female"
filter the computation does not return 53.3 — the subset mean is 53.25
and Python's `round` is round-half-to-even, which yields 53.2. -/
theorem end_to_end_female_avg_not_53_3 :
    compute_avg_age df_c3 "Female" ≠ 533 / 10 := by
  rw [compute_avg_age_df_c3_female]
  norm_num

/-- C3 as amended: on the concrete 10-row dataset with the "Female"
filter the computation returns 53.2 = 266/5, both directly and through
committing the dataset and filter to the scenario store and executing
the configured task. -/
theorem end_to_end_female_avg_53_2 :
    compute_avg_age df_c3 "Female" = 266 / 5 ∧
    execute task_cfg store_c3 "avg_age" = NodeValue.num (266 / 5) := by
  refine ⟨compute_avg_age_df_c3_female, ?_⟩
  have h : execute task_cfg store_c3 "avg_age" =
      NodeValue.num (compute_avg_age df_c3 "Female") := by
    simp [execute, task_cfg, task_computation, store_c3, writeStore]
  rw [h, compute_avg_age_df_c3_female]

/-- C4 counterexample: on a dataframe in which the string "All" occurs
as a value of the `sex_label` column, filtering by the category "All"
inside the computation disagrees with filtering the dataset directly
first — the sentinel meaning of "All" selects the whole dataframe
instead of the matching rows. -/
theorem filter_inside_vs_prefilter_counterexample :
    some "All" ∈ df_c4.map Row.sex_label ∧
    compute_avg_age df_c4 "All" ≠
      compute_avg_age (df_c4.filter fun r => decide (r.sex_label = some "All")) "All" := by
  refine ⟨by decide, ?_⟩
  have hA : genderSubset df_c4 "All" = df_c4 := by decide
  have e1 : compute_avg_age df_c4 "All" = 5 := by
    rw [compute_avg_age, hA]
    norm_num [df_c4, round1, roundHalfToEven]
  have hf : (df_c4.filter fun r => decide (r.sex_label = some "All"))
      = [⟨some "All", 0⟩] := by decide
  have hB : genderSubset [(⟨some "All", 0⟩ : Row)] "All" = [⟨some "All", 0⟩] := by decide
  have e2 : compute_avg_age (df_c4.filter fun r => decide (r.sex_label = some "All"))
      "All" = 0 := by
    rw [hf, compute_avg_age, hB]
    norm_num [round1, roundHalfToEven]
  rw [e1, e2]
  norm_num

/-- C4 as amended: for every dataframe and every category value of the
`sex_label` column other than the reserved sentinel "All", filtering by
the category inside the computation agrees with filtering the dataset
directly first. -/
theorem filter_inside_eq_prefilter_of_ne_all (df : List Row) (g : String)
    (_hmem : some g ∈ df.map Row.sex_label) (hne : g ≠ "All") :
    compute_avg_age df g =
      compute_avg_age (df.filter fun r => decide (r.sex_label = some g)) "All" := by
  have h1 : genderSubset df g = df.filter fun r => decide (r.sex_label = some g) := by
    simp [genderSubset, hne]
  have h2 : genderSubset (df.filter fun r => decide (r.sex_label = some g)) "All"
      = df.filter fun r => decide (r.sex_label = some g) := by
    simp [genderSubset]
  rw [compute_avg_age, compute_avg_age, h1, h2]

/-- Witness for amended C4 at the two-row dataframe and category
"Male". -/
theorem filter_inside_eq_prefilter_of_ne_all_witness :
    some "Male" ∈ df_c4.map Row.sex_label ∧ "Male" ≠ "All" ∧
    compute_avg_age df_c4 "Male" =
      compute_avg_age (df_c4.filter fun r => decide (r.sex_label = some "Male")) "All" :=
  ⟨by decide, by decide,
   filter_inside_eq_prefilter_of_ne_all df_c4 "Male" (by decide) (by decide)⟩

/-- C6: the commit operation writes the current presentation values into
the scenario's two input nodes (overwriting them), emits the
notification, and leaves every other node — in particular `avg_age` —
unchanged: no submission happens. -/
theorem save_scenario_commits_without_submit (s : GuiState) :
    (save_scenario s).scenario "filtered_df" = NodeValue.df s.filtered_df ∧
    (save_scenario s).scenario "gender_filter" = NodeValue.str s.gender_selected ∧
    (save_scenario s).scenario "avg_age" = s.scenario "avg_age" ∧
    (save_scenario s).notifications
      = s.notifications ++ ["Scenario saved -- submit to compute!"] ∧
    ∀ n : String, n ≠ "filtered_df" → n ≠ "gender_filter" →
      (save_scenario s).scenario n = s.scenario n := by
  refine ⟨?_, ?_, ?_, rfl, ?_⟩
  · simp [save_scenario, writeStore]
  · simp [save_scenario, writeStore]
  · simp [save_scenario, writeStore]
  · intro n hn1 hn2
    simp [save_scenario, writeStore, hn1, hn2]

/-- Witness for C6 at a concrete presentation state, checking the
`avg_age` frame through the quantified conjunct. -/
theorem save_scenario_commits_without_submit_witness :
    (save_scenario gstate_w).scenario "filtered_df" = NodeValue.df gstate_w.filtered_df ∧
    (save_scenario gstate_w).scenario "avg_age" = gstate_w.scenario "avg_age" :=
  ⟨(save_scenario_commits_without_submit gstate_w).1,
   (save_scenario_commits_without_submit gstate_w).2.2.2.2 "avg_age"
     (by decide) (by decide)⟩

/-- Helper: setting one position of a scenario list leaves reads through
`getD` at any other position unchanged. -/
theorem getD_set_ne_store (l : List NodeStore) (i j : Nat) (x : NodeStore)
    (h : i ≠ j) : (l.set i x).getD j emptyStore = l.getD j emptyStore := by
  simp [List.getD_eq_getElem?_getD, List.getElem?_set_ne h]

/-- C8: scenario isolation — scenarios created from the same
configuration get distinct ids, and writing a value to one scenario's
node leaves the value read from any other scenario's node unchanged. -/
theorem scenario_isolation (sys : List NodeStore) (i j : Nat) (n : String)
    (v : NodeValue) (hij : i ≠ j) :
    (create_scenario sys).2 ≠ (create_scenario (create_scenario sys).1).2 ∧
    readNode (writeNode sys i n v) j n = readNode sys j n := by
  constructor
  · simp [create_scenario]
  · show (List.set sys i _).getD j emptyStore n = sys.getD j emptyStore n
    rw [getD_set_ne_store _ _ _ _ hij]

/-- Witness for C8 on a concrete two-scenario system. -/
theorem scenario_isolation_witness :
    (create_scenario sys_w).2 ≠ (create_scenario (create_scenario sys_w).1).2 ∧
    readNode (writeNode sys_w 0 "gender_filter" (NodeValue.str "Male")) 1
      "gender_filter" = readNode sys_w 1 "gender_filter" :=
  scenario_isolation sys_w 0 1 "gender_filter" (NodeValue.str "Male") (by decide)
